import Mathlib

/-!
Verification development for the Liturgi AI Streamlit app (src/app.py).

The app loads a table of liturgy records, enriches it with a derived
month column, renders a per-month aggregate, and on a user action builds
a prompt that embeds a CSV excerpt of the data, calls a chat model, and
records the question and answer in a history table.

This file gives a shallow embedding of the pure logic of src/app.py:
Python strings are Lean strings, Python slicing s[:n] is a take of the
character list, a pandas DataFrame is an ordered association list of
columns, and fallible calls return Except.  Each definition is
translated from the corresponding place in src/app.py, noted in its
doc comment.
-/

namespace LiturgiAI

/-- src/app.py line 25: `MAX_CSV_CHARS = 80000`, the maximum number of
CSV characters sent to the model. -/
def MAX_CSV_CHARS : Nat := 80000

/-- src/app.py line 28: the source table name. -/
def SOURCE_TABLE : String := "liturgi.`01_curated`.pdf_liturgi_ai_analysis"

/-- Python string slicing `s[:n]`: the first `n` characters of `s`
(all of `s` when it is shorter). -/
def pyTake (s : String) (n : Nat) : String :=
  String.mk (s.data.take n)

theorem pyTake_length_le (s : String) (n : Nat) : (pyTake s n).length ≤ n := by
  cases s with
  | mk data =>
    show (data.take n).length ≤ n
    rw [List.length_take]
    omega

theorem pyTake_of_le (s : String) (n : Nat) (h : s.length ≤ n) : pyTake s n = s := by
  cases s with
  | mk data =>
    simp only [pyTake, String.length] at *
    rw [List.take_of_length_le h]

/-- src/app.py lines 306-313: the excerpt of the serialized CSV that is
embedded into the prompt.  If the serialization is longer than
`MAX_CSV_CHARS` only the first `MAX_CSV_CHARS` characters are kept,
otherwise the serialization is embedded unchanged. -/
def csv_text_short (csv_text : String) : String :=
  if csv_text.length > MAX_CSV_CHARS then pyTake csv_text MAX_CSV_CHARS
  else csv_text

/-- src/app.py lines 306-311: the `st.warning` call.  `some n` means a
truncation warning is shown reporting an original length of `n`
characters; `none` means no warning is shown. -/
def truncation_warning (csv_text : String) : Option Nat :=
  if csv_text.length > MAX_CSV_CHARS then some csv_text.length
  else none

/-- A concrete string of 80001 characters, used to exercise the
truncation paths on an input that exceeds both budgets in the app. -/
def bigString : String := String.mk (List.replicate 80001 'a')

theorem bigString_length : bigString.length = 80001 := by
  show (List.replicate 80001 'a').length = 80001
  rw [List.length_replicate]

/-- C1: if the CSV serialization has at most `MAX_CSV_CHARS` (80000)
characters, the excerpt embedded in the prompt is the serialization
itself; if it is longer, the excerpt is exactly the first 80000
characters (a strict prefix cut); in both cases the embedded excerpt
never exceeds 80000 characters. -/
theorem csv_text_short_spec (csv : String) :
    (csv.length ≤ MAX_CSV_CHARS → csv_text_short csv = csv) ∧
    (csv.length > MAX_CSV_CHARS → csv_text_short csv = pyTake csv MAX_CSV_CHARS) ∧
    (csv_text_short csv).length ≤ MAX_CSV_CHARS := by
  refine ⟨fun h => ?_, fun h => ?_, ?_⟩
  · unfold csv_text_short
    rw [if_neg (Nat.not_lt.mpr h)]
  · unfold csv_text_short
    rw [if_pos h]
  · by_cases h : csv.length > MAX_CSV_CHARS
    · unfold csv_text_short
      rw [if_pos h]
      exact pyTake_length_le csv MAX_CSV_CHARS
    · unfold csv_text_short
      rw [if_neg h]
      omega

/-- Witness for C1: both branches of `csv_text_short_spec` evaluated at
concrete inputs, one within and one above the budget. -/
theorem csv_text_short_spec_witness :
    csv_text_short "a,b\n1,2\n" = "a,b\n1,2\n" ∧
    csv_text_short bigString = pyTake bigString MAX_CSV_CHARS :=
  ⟨(csv_text_short_spec "a,b\n1,2\n").1 (by decide),
   (csv_text_short_spec bigString).2.1 (by rw [bigString_length]; decide)⟩

/-- C2: a truncation warning is raised exactly when the serialization
exceeds the 80000 character budget, and the original length reported in
the warning is the true character length of the full, pre-truncation
serialization. -/
theorem truncation_warning_spec (csv : String) :
    (csv.length > MAX_CSV_CHARS → truncation_warning csv = some csv.length) ∧
    (csv.length ≤ MAX_CSV_CHARS → truncation_warning csv = none) ∧
    (∀ n, truncation_warning csv = some n → n = csv.length) := by
  refine ⟨fun h => ?_, fun h => ?_, fun n hn => ?_⟩
  · unfold truncation_warning
    rw [if_pos h]
  · unfold truncation_warning
    rw [if_neg (Nat.not_lt.mpr h)]
  · by_cases h : csv.length > MAX_CSV_CHARS
    · unfold truncation_warning at hn
      rw [if_pos h] at hn
      injection hn with h2
      exact h2.symm
    · unfold truncation_warning at hn
      rw [if_neg h] at hn
      exact absurd hn (by simp)

/-- Witness for C2: a warning with the exact original length 80001 for
the long input, and no warning for a short input. -/
theorem truncation_warning_spec_witness :
    truncation_warning bigString = some bigString.length ∧
    truncation_warning "a,b\n1,2\n" = none :=
  ⟨(truncation_warning_spec bigString).1 (by rw [bigString_length]; decide),
   (truncation_warning_spec "a,b\n1,2\n").2.1 (by decide)⟩

/-- One record of the Q and A history table, as inserted by
`save_history` in src/app.py (the server-assigned `asked_at` timestamp
and the auto-increment `id` are supplied by the store, not the app). -/
structure HistoryRow where
  source_table : String
  limit_rows : Nat
  user_instruction : String
  prompt_sent : String
  answer : String
  model : String
deriving Repr, DecidableEq

/-- src/app.py lines 65-112: `save_history` trims the prompt and the
answer to at most `max_len = 65000` characters and inserts one row into
the history table.  The instruction is passed through unchanged. -/
def save_history (limit_rows : Nat) (user_instruction full_prompt answer model_name : String) :
    HistoryRow :=
  { source_table := SOURCE_TABLE
    limit_rows := limit_rows
    user_instruction := user_instruction
    prompt_sent := pyTake full_prompt 65000
    answer := pyTake answer 65000
    model := model_name }

/-- Counterexample for C6: the claim says the user instruction text is
trimmed to at most 65000 characters before insertion, but `save_history`
only trims `full_prompt` and `answer`; an 80001-character instruction is
stored at 80001 characters. -/
theorem save_history_instruction_untrimmed_cex :
    ¬ ((save_history 10 bigString "p" "a" "gpt-5.1").user_instruction.length ≤ 65000) := by
  show ¬ (bigString.length ≤ 65000)
  rw [bigString_length]
  decide

/-- C6 amended: before insertion `save_history` trims the prompt text
and the answer text each to at most 65000 characters by a prefix cut,
with a budget independent of the 80000 character excerpt budget, while
the user instruction is stored unchanged. -/
theorem save_history_trims (limit : Nat) (instr prompt ans model : String) :
    (save_history limit instr prompt ans model).prompt_sent = pyTake prompt 65000 ∧
    (save_history limit instr prompt ans model).answer = pyTake ans 65000 ∧
    (save_history limit instr prompt ans model).prompt_sent.length ≤ 65000 ∧
    (save_history limit instr prompt ans model).answer.length ≤ 65000 ∧
    (save_history limit instr prompt ans model).user_instruction = instr :=
  ⟨rfl, rfl, pyTake_length_le prompt 65000, pyTake_length_le ans 65000, rfl⟩

/-- The per-session state the app keeps in `st.session_state`
(src/app.py lines 185-188): the last answer and the last row limit. -/
structure SessionState where
  last_answer : String
  last_limit_rows : Nat
deriving Repr, DecidableEq

/-- The user-visible notice emitted by the history-save block
(src/app.py lines 345-347): a success message or a caught-error
message. -/
inductive SaveNotice where
  | success
  | failure (msg : String)
deriving Repr, DecidableEq

/-- src/app.py lines 332-347: after an answer is produced the session
state is updated, then the history insert is attempted inside
try/except; an insert failure only changes which notice is shown.
`save_result` is the outcome of the `save_history` call. -/
def after_ask (answer : String) (limit : Nat) (save_result : Except String Unit) :
    SessionState × SaveNotice :=
  let s : SessionState := { last_answer := answer, last_limit_rows := limit }
  match save_result with
  | Except.ok _ => (s, SaveNotice.success)
  | Except.error e => (s, SaveNotice.failure ("Gagal menyimpan riwayat: " ++ e))

/-- src/app.py lines 350-358: the last answer is rendered when it is
nonempty, otherwise an informational placeholder is shown (`none`). -/
def render_last_answer (s : SessionState) : Option String :=
  if s.last_answer = "" then none else some s.last_answer

/-- C7: a failed history insert is caught and surfaced as a non-fatal
notice, and the session state holding the just-produced answer is
exactly what it would have been on a successful insert: the answer is
neither erased nor blocked from display. -/
theorem after_ask_preserves_answer (a : String) (l : Nat) (e : String) (ha : a ≠ "") :
    (after_ask a l (Except.error e)).1.last_answer = a ∧
    (after_ask a l (Except.error e)).1 = (after_ask a l (Except.ok ())).1 ∧
    (after_ask a l (Except.error e)).2 = SaveNotice.failure ("Gagal menyimpan riwayat: " ++ e) ∧
    render_last_answer (after_ask a l (Except.error e)).1 = some a := by
  refine ⟨rfl, rfl, rfl, ?_⟩
  show (if a = "" then (none : Option String) else some a) = some a
  rw [if_neg ha]

/-- Witness for C7 at a concrete answer, limit and error. -/
theorem after_ask_preserves_answer_witness :
    (after_ask "jawab" 10 (Except.error "socket closed")).1.last_answer = "jawab" ∧
    (after_ask "jawab" 10 (Except.error "socket closed")).1 =
      (after_ask "jawab" 10 (Except.ok ())).1 ∧
    (after_ask "jawab" 10 (Except.error "socket closed")).2 =
      SaveNotice.failure ("Gagal menyimpan riwayat: " ++ "socket closed") ∧
    render_last_answer (after_ask "jawab" 10 (Except.error "socket closed")).1 = some "jawab" :=
  after_ask_preserves_answer "jawab" 10 "socket closed" (by decide)

/-- One content item of a chat response, carrying a text field
(the shape read by `resp.output[0].content[0].text`). -/
structure ContentItem where
  text : String
deriving Repr, DecidableEq

/-- One output item of a chat response: a list of content items. -/
structure OutputItem where
  content : List ContentItem
deriving Repr, DecidableEq

/-- A chat response: a list of output items. -/
structure ChatResponse where
  output : List OutputItem
deriving Repr, DecidableEq

/-- src/app.py lines 141-159: `ask_chatgpt` sends the prompt and
returns `resp.output[0].content[0].text`.  The argument is the outcome
of the `client.responses.create` call: `Except.error` is a transport or
service exception, which the function does not catch.  An empty output
list or an empty content list raises an IndexError; there is no
try/except, fallback field, or placeholder anywhere in the function. -/
def ask_chatgpt (call_result : Except String ChatResponse) : Except String String :=
  match call_result with
  | Except.error e => Except.error e
  | Except.ok resp =>
    match resp.output with
    | [] => Except.error "IndexError: list index out of range"
    | item :: _ =>
      match item.content with
      | [] => Except.error "IndexError: list index out of range"
      | c :: _ => Except.ok c.text

/-- Counterexample for C4: on a response whose output list is empty the
claim promises a fixed placeholder answer, but `ask_chatgpt` raises an
IndexError that propagates to the caller. -/
theorem ask_chatgpt_propagates_cex :
    ask_chatgpt (Except.ok { output := [] }) =
      Except.error "IndexError: list index out of range" ∧
    (ask_chatgpt (Except.ok { output := [] })).isOk = false :=
  ⟨rfl, rfl⟩

/-- C4 amended: `ask_chatgpt` returns the text of the first content
item of the first output item when both exist; when either list is
empty an IndexError exception propagates to the caller, and a transport
or service error is not caught either.  No fallback field is consulted
and no placeholder is returned. -/
theorem ask_chatgpt_behavior :
    (∀ e, ask_chatgpt (Except.error e) = Except.error e) ∧
    (∀ resp : ChatResponse, resp.output = [] →
      ask_chatgpt (Except.ok resp) = Except.error "IndexError: list index out of range") ∧
    (∀ (resp : ChatResponse) (item : OutputItem) (rest : List OutputItem),
      resp.output = item :: rest → item.content = [] →
      ask_chatgpt (Except.ok resp) = Except.error "IndexError: list index out of range") ∧
    (∀ (resp : ChatResponse) (item : OutputItem) (rest : List OutputItem)
        (c : ContentItem) (cs : List ContentItem),
      resp.output = item :: rest → item.content = c :: cs →
      ask_chatgpt (Except.ok resp) = Except.ok c.text) := by
  refine ⟨fun e => rfl, fun resp h => ?_, fun resp item rest h hc => ?_, ?_⟩
  · obtain ⟨out⟩ := resp
    have h2 : out = [] := h
    subst h2
    rfl
  · obtain ⟨out⟩ := resp
    have h2 : out = item :: rest := h
    obtain ⟨cont⟩ := item
    have hc2 : cont = [] := hc
    subst h2
    subst hc2
    rfl
  · intro resp item rest c cs h hc
    obtain ⟨out⟩ := resp
    have h2 : out = item :: rest := h
    obtain ⟨cont⟩ := item
    have hc2 : cont = c :: cs := hc
    subst h2
    subst hc2
    rfl

/-- Witness for C4 amended: the three non-trivial branches evaluated at
concrete responses. -/
theorem ask_chatgpt_behavior_witness :
    ask_chatgpt (Except.ok { output := [] }) =
      Except.error "IndexError: list index out of range" ∧
    ask_chatgpt (Except.ok { output := [{ content := [] }] }) =
      Except.error "IndexError: list index out of range" ∧
    ask_chatgpt (Except.ok { output := [{ content := [{ text := "halo" }] }] }) =
      Except.ok "halo" ∧
    ask_chatgpt (Except.error "timeout") = Except.error "timeout" :=
  ⟨ask_chatgpt_behavior.2.1 { output := [] } rfl,
   ask_chatgpt_behavior.2.2.1 { output := [{ content := [] }] } { content := [] } [] rfl rfl,
   ask_chatgpt_behavior.2.2.2 { output := [{ content := [{ text := "halo" }] }] }
     { content := [{ text := "halo" }] } [] { text := "halo" } [] rfl rfl,
   ask_chatgpt_behavior.1 "timeout"⟩

/-- A pandas DataFrame, embedded column-major: an ordered association
list from column name to the list of cell values of that column.  A
cell is `Option String` (`none` is a missing value).  Column names are
unique in any frame produced by pandas; assignment replaces an existing
column in place and appends a new one at the end, which `setCol` below
mirrors. -/
structure DataFrame where
  cols : List (String × List (Option String))
deriving Repr, DecidableEq

/-- First column whose name equals `c`, as in pandas column lookup. -/
def lookupCol (c : String) : List (String × List (Option String)) → Option (List (Option String))
  | [] => none
  | p :: ps => if p.1 = c then some p.2 else lookupCol c ps

/-- `df[c]` when the column exists, `none` when it does not. -/
def getColumn (df : DataFrame) (c : String) : Option (List (Option String)) :=
  lookupCol c df.cols

/-- Helper for `setCol`: replace the first column named `c` in place,
or append a new column at the end. -/
def setColAux (c : String) (vals : List (Option String)) :
    List (String × List (Option String)) → List (String × List (Option String))
  | [] => [(c, vals)]
  | p :: ps => if p.1 = c then (c, vals) :: ps else p :: setColAux c vals ps

/-- pandas column assignment `df[c] = vals`. -/
def setCol (df : DataFrame) (c : String) (vals : List (Option String)) : DataFrame :=
  ⟨setColAux c vals df.cols⟩

/-- `len(df)`: the number of rows, read off the first column
(0 for a frame with no columns). -/
def nRows (df : DataFrame) : Nat :=
  match df.cols with
  | [] => 0
  | p :: _ => p.2.length

/-- A calendar date. -/
structure Date where
  year : Nat
  month : Nat
  day : Nat
deriving Repr, DecidableEq

/-- Accumulating decimal parse of an ASCII numeral; fails on the first
non-digit character. -/
def digitsToNatAux : List Char → Nat → Option Nat
  | [], acc => some acc
  | c :: cs, acc =>
    if c.isDigit then digitsToNatAux cs (acc * 10 + (c.toNat - 48)) else none

/-- Decimal parse of one ISO date component; `none` on an empty or
non-numeric component. -/
def digitsToNat? (l : List Char) : Option Nat :=
  match l with
  | [] => none
  | _ :: _ => digitsToNatAux l 0

/-- Split a character list at every dash, the character-list form of
splitting a string on `"-"`. -/
def splitDash : List Char → List (List Char)
  | [] => [[]]
  | c :: cs =>
    let r := splitDash cs
    if c = '-' then [] :: r
    else
      match r with
      | [] => [[c]]
      | g :: gs => (c :: g) :: gs

/-- Semantics of `pd.to_datetime(x, errors="coerce")` on one cell,
restricted to ISO `YYYY-MM-DD` strings, the format of the liturgy
data; every other string coerces to the null marker NaT, embedded as
`none`, rather than raising. -/
def parseDate (s : String) : Option Date :=
  match splitDash s.data with
  | [y, m, d] =>
    match digitsToNat? y, digitsToNat? m, digitsToNat? d with
    | some yn, some mn, some dn =>
      if 1 ≤ mn ∧ mn ≤ 12 ∧ 1 ≤ dn ∧ dn ≤ 31 then some ⟨yn, mn, dn⟩ else none
    | _, _, _ => none
  | _ => none

/-- Zero-padded two-digit rendering of a month number. -/
def pad2 (n : Nat) : String :=
  if n < 10 then "0" ++ toString n else toString n

/-- Zero-padded four-digit rendering of a year number. -/
def pad4 (n : Nat) : String :=
  if n < 10 then "000" ++ toString n
  else if n < 100 then "00" ++ toString n
  else if n < 1000 then "0" ++ toString n
  else toString n

/-- Semantics of `.dt.to_period("M").astype(str)` on one parsed cell:
a valid timestamp renders as the zero-padded `YYYY-MM` period string,
and the null marker NaT renders as the string `"NaT"` (the `str` form
of `pd.NaT`), not as `"Unknown"`. -/
def period_month_str (p : Option Date) : String :=
  match p with
  | some d => pad4 d.year ++ "-" ++ pad2 d.month
  | none => "NaT"

/-- ISO rendering of a parsed date, the value stored in the
`liturgy_date_parsed` column. -/
def date_iso_str (d : Date) : String :=
  pad4 d.year ++ "-" ++ pad2 d.month ++ "-" ++ pad2 d.day

/-- src/app.py lines 201-211: the enrichment block.  When a
`liturgy_date` column exists, its values are parsed
(`errors="coerce"`) into a new `liturgy_date_parsed` column and the
month period string into a new `liturgy_month` column; otherwise every
row gets the constant `liturgy_month` value `"Unknown"`.  The input
frame itself is `df_liturgi.copy()`-protected in the source, which the
pure embedding reflects by returning a new frame. -/
def enrich (df : DataFrame) : DataFrame :=
  match getColumn df "liturgy_date" with
  | some dateVals =>
    let parsed := dateVals.map (fun v => v.bind parseDate)
    let df1 := setCol df "liturgy_date_parsed" (parsed.map (Option.map date_iso_str))
    setCol df1 "liturgy_month" (parsed.map (fun p => some (period_month_str p)))
  | none =>
    setCol df "liturgy_month" (List.replicate (nRows df) (some "Unknown"))

/-- Lexicographic comparison of character lists by code point, the
order in which pandas sorts string keys. -/
def charListLt : List Char → List Char → Bool
  | [], [] => false
  | [], _ :: _ => true
  | _ :: _, [] => false
  | c :: cs, d :: ds =>
    if c.toNat < d.toNat then true
    else if d.toNat < c.toNat then false
    else charListLt cs ds

/-- Strict lexicographic order on strings by code point. -/
def strLt (a b : String) : Bool :=
  charListLt a.data b.data

/-- Ascending insertion by the string order, used to model the sorted
output of `groupby(..., sort=True)` plus `sort_values`. -/
def insertSorted (m : String) : List String → List String
  | [] => [m]
  | x :: xs => if strLt m x then m :: x :: xs else x :: insertSorted m xs

/-- Insertion sort on strings, ascending. -/
def sortStrings (l : List String) : List String :=
  l.foldr insertSorted []

/-- The distinct values of a list (each value kept once). -/
def dedupStr : List String → List String
  | [] => []
  | x :: xs => if x ∈ xs then dedupStr xs else x :: dedupStr xs

/-- src/app.py lines 229-235: `groupby("liturgy_month").size()` then
`sort_values("liturgy_month")`: the distinct month keys in ascending
order, each with its row count.  `none` models the KeyError pandas
raises when the grouping column is missing. -/
def month_counts (df : DataFrame) : Option (List (String × Nat)) :=
  (getColumn df "liturgy_month").map (fun vals =>
    let ms := vals.filterMap id
    (sortStrings (dedupStr ms)).map (fun m => (m, ms.count m)))

/-- src/app.py lines 236-241: the month aggregate is rendered as a bar
chart when nonempty and as an informational message otherwise. -/
inductive MonthView where
  | chart (data : List (String × Nat))
  | info
deriving Repr, DecidableEq

/-- The render decision of src/app.py lines 236-241. -/
def render_month_counts (mc : List (String × Nat)) : MonthView :=
  if mc.isEmpty then MonthView.info else MonthView.chart mc

/-- src/app.py lines 261-268: the slider lower bound. -/
def slider_min (n_rows : Nat) : Nat :=
  if n_rows < 10 then 1 else 10

/-- src/app.py lines 261-268: the slider upper bound. -/
def slider_max (n_rows : Nat) : Nat :=
  if n_rows < 10 then n_rows else min 500 n_rows

/-- src/app.py lines 271-273: the remembered default is reset to the
lower bound when it falls outside the slider bounds. -/
def clamp_default (last lo hi : Nat) : Nat :=
  if last < lo ∨ last > hi then lo else last

/-- src/app.py line 304: `df_liturgi_enriched.head(limit_rows_for_ai)`,
the first `limit` rows of every column. -/
def df_for_ai (df : DataFrame) (limit : Nat) : DataFrame :=
  ⟨df.cols.map (fun p => (p.1, p.2.take limit))⟩

theorem lookupCol_setColAux_self (c : String) (vals : List (Option String))
    (cols : List (String × List (Option String))) :
    lookupCol c (setColAux c vals cols) = some vals := by
  induction cols with
  | nil => simp [setColAux, lookupCol]
  | cons p ps ih =>
    by_cases h : p.1 = c
    · simp [setColAux, lookupCol, h]
    · simp [setColAux, lookupCol, h, ih]

theorem lookupCol_setColAux_ne (c cNew : String) (vals : List (Option String))
    (cols : List (String × List (Option String))) (h : c ≠ cNew) :
    lookupCol c (setColAux cNew vals cols) = lookupCol c cols := by
  induction cols with
  | nil => simp [setColAux, lookupCol, Ne.symm h]
  | cons p ps ih =>
    by_cases hp : p.1 = cNew
    · simp [setColAux, lookupCol, hp, Ne.symm h]
    · simp [setColAux, lookupCol, hp, ih]

theorem length_setColAux_of_none (c : String) (vals : List (Option String))
    (cols : List (String × List (Option String))) (h : lookupCol c cols = none) :
    (setColAux c vals cols).length = cols.length + 1 := by
  induction cols with
  | nil => rfl
  | cons p ps ih =>
    by_cases hp : p.1 = c
    · simp [lookupCol, hp] at h
    · simp only [lookupCol, hp, if_neg, ite_false] at h
      simp [setColAux, hp, ih h]

theorem lookupCol_some_exists (c : String)
    (cols : List (String × List (Option String))) (vals : List (Option String))
    (h : lookupCol c cols = some vals) :
    ∃ p ∈ cols, p.2 = vals := by
  induction cols with
  | nil => simp [lookupCol] at h
  | cons p ps ih =>
    by_cases hp : p.1 = c
    · refine ⟨p, List.mem_cons_self p ps, ?_⟩
      simp only [lookupCol, hp, if_pos, Option.some.injEq] at h
      exact h
    · simp only [lookupCol, hp, if_neg, ite_false] at h
      obtain ⟨q, hq, hv⟩ := ih h
      exact ⟨q, List.mem_cons_of_mem p hq, hv⟩

/-- Counterexample for C3: the claim says a row whose date value does
not parse buckets to `"Unknown"`, but on a one-row frame whose
`liturgy_date` is the unparseable string `"not-a-date"` the derived
month bucket is the string `"NaT"` (the null marker rendered by
`astype(str)`), not `"Unknown"`. -/
theorem month_bucket_unknown_cex :
    getColumn (enrich ⟨[("liturgy_date", [some "not-a-date"])]⟩) "liturgy_month" =
      some [some "NaT"] ∧
    getColumn (enrich ⟨[("liturgy_date", [some "not-a-date"])]⟩) "liturgy_month" ≠
      some [some "Unknown"] := by
  constructor
  · decide
  · decide

/-- C3 amended: in a frame with a `liturgy_date` column, every row
whose date value parses gets the zero-padded `YYYY-MM` bucket of its
parsed date, and every row whose date value is missing or unparseable
gets the bucket `"NaT"` (the rendered null marker), not `"Unknown"`. -/
theorem month_bucket_values (df : DataFrame) (dateVals : List (Option String))
    (h : getColumn df "liturgy_date" = some dateVals) :
    getColumn (enrich df) "liturgy_month" =
      some (dateVals.map (fun v => some (period_month_str (v.bind parseDate)))) ∧
    (∀ d, period_month_str (some d) = pad4 d.year ++ "-" ++ pad2 d.month) ∧
    period_month_str none = "NaT" := by
  refine ⟨?_, fun d => rfl, rfl⟩
  have key : getColumn (enrich df) "liturgy_month" =
      some ((dateVals.map (fun v => v.bind parseDate)).map
        (fun p => some (period_month_str p))) := by
    unfold enrich
    rw [h]
    exact lookupCol_setColAux_self _ _ _
  rw [key, List.map_map]
  rfl

/-- Witness for C3 amended: a three-row frame with one parseable date,
one junk string and one missing value buckets to
`["2024-01", "NaT", "NaT"]`. -/
theorem month_bucket_values_witness :
    getColumn (enrich ⟨[("liturgy_date", [some "2024-01-14", some "bad", none])]⟩)
      "liturgy_month" = some [some "2024-01", some "NaT", some "NaT"] := by
  have h := (month_bucket_values ⟨[("liturgy_date", [some "2024-01-14", some "bad", none])]⟩
    [some "2024-01-14", some "bad", none] (by decide)).1
  rw [h]
  decide

/-- Counterexample for C5: the claim says enrichment adds exactly one
column, but on a frame that has a `liturgy_date` column the enriched
frame has two additional columns (`liturgy_date_parsed` and
`liturgy_month`): 3 columns instead of the claimed 2. -/
theorem enrich_one_column_cex :
    (enrich ⟨[("liturgy_date", [some "2024-01-07"])]⟩).cols.length = 3 ∧
    (enrich ⟨[("liturgy_date", [some "2024-01-07"])]⟩).cols.length ≠
      (⟨[("liturgy_date", [some "2024-01-07"])]⟩ : DataFrame).cols.length + 1 := by
  constructor
  · decide
  · decide

/-- C5 amended: on a frame that does not already carry the derived
column names, enrichment adds exactly two columns when a
`liturgy_date` column is present and exactly one otherwise, and it
never changes the name or the values of any pre-existing column other
than the derived ones; the input frame itself is left untouched
(`df_liturgi.copy()`). -/
theorem enrich_columns_spec (df : DataFrame)
    (h1 : getColumn df "liturgy_date_parsed" = none)
    (h2 : getColumn df "liturgy_month" = none) :
    ((getColumn df "liturgy_date").isSome →
      (enrich df).cols.length = df.cols.length + 2) ∧
    (getColumn df "liturgy_date" = none →
      (enrich df).cols.length = df.cols.length + 1) ∧
    (∀ c, c ≠ "liturgy_date_parsed" → c ≠ "liturgy_month" →
      getColumn (enrich df) c = getColumn df c) := by
  cases hd : getColumn df "liturgy_date" with
  | some dv =>
    have hform : enrich df =
        setCol (setCol df "liturgy_date_parsed"
            ((dv.map (fun v => v.bind parseDate)).map (Option.map date_iso_str)))
          "liturgy_month"
          ((dv.map (fun v => v.bind parseDate)).map (fun p => some (period_month_str p))) := by
      unfold enrich
      rw [hd]
    refine ⟨fun _ => ?_, fun hn => ?_, fun c hc1 hc2 => ?_⟩
    · rw [hform]
      have e2 : lookupCol "liturgy_month"
          (setColAux "liturgy_date_parsed"
            ((dv.map (fun v => v.bind parseDate)).map (Option.map date_iso_str)) df.cols) =
          none := by
        rw [lookupCol_setColAux_ne _ _ _ _ (by decide)]
        exact h2
      show (setColAux "liturgy_month" _ (setColAux "liturgy_date_parsed" _ df.cols)).length =
        df.cols.length + 2
      rw [length_setColAux_of_none _ _ _ e2, length_setColAux_of_none _ _ _ h1]
    · exact Option.noConfusion hn
    · rw [hform]
      show lookupCol c (setColAux "liturgy_month" _ (setColAux "liturgy_date_parsed" _ df.cols)) =
        lookupCol c df.cols
      rw [lookupCol_setColAux_ne _ _ _ _ hc2, lookupCol_setColAux_ne _ _ _ _ hc1]
  | none =>
    have hform : enrich df =
        setCol df "liturgy_month" (List.replicate (nRows df) (some "Unknown")) := by
      unfold enrich
      rw [hd]
    refine ⟨fun hs => ?_, fun _ => ?_, fun c hc1 hc2 => ?_⟩
    · simp at hs
    · rw [hform]
      exact length_setColAux_of_none _ _ _ h2
    · rw [hform]
      show lookupCol c (setColAux "liturgy_month" _ df.cols) = lookupCol c df.cols
      rw [lookupCol_setColAux_ne _ _ _ _ hc2]

/-- Witness for C5 amended: both column-count branches and value
preservation evaluated on concrete frames. -/
theorem enrich_columns_spec_witness :
    (enrich ⟨[("liturgy_date", [some "2024-01-07"]), ("preek", [some "Mazmur 23"])]⟩).cols.length =
      (⟨[("liturgy_date", [some "2024-01-07"]), ("preek", [some "Mazmur 23"])]⟩ :
        DataFrame).cols.length + 2 ∧
    (enrich ⟨[("preek", [some "Mazmur 23"])]⟩).cols.length =
      (⟨[("preek", [some "Mazmur 23"])]⟩ : DataFrame).cols.length + 1 ∧
    getColumn (enrich ⟨[("liturgy_date", [some "2024-01-07"]), ("preek", [some "Mazmur 23"])]⟩)
      "preek" =
      getColumn (⟨[("liturgy_date", [some "2024-01-07"]), ("preek", [some "Mazmur 23"])]⟩ :
        DataFrame) "preek" :=
  ⟨(enrich_columns_spec ⟨[("liturgy_date", [some "2024-01-07"]), ("preek", [some "Mazmur 23"])]⟩
      (by decide) (by decide)).1 (by decide),
   (enrich_columns_spec ⟨[("preek", [some "Mazmur 23"])]⟩ (by decide) (by decide)).2.1 (by decide),
   (enrich_columns_spec ⟨[("liturgy_date", [some "2024-01-07"]), ("preek", [some "Mazmur 23"])]⟩
      (by decide) (by decide)).2.2 "preek" (by decide) (by decide)⟩

/-- C8: on a dataset with zero rows the month aggregation yields an
empty result without any error, and the empty aggregate is rendered as
an informational message rather than a chart. -/
theorem month_counts_empty_spec (df : DataFrame)
    (h : ∀ p ∈ df.cols, p.2.length = 0) :
    month_counts (enrich df) = some [] ∧
    (month_counts (enrich df)).map render_month_counts = some MonthView.info := by
  have key : getColumn (enrich df) "liturgy_month" = some [] := by
    cases hd : getColumn df "liturgy_date" with
    | some dv =>
      obtain ⟨p, hmem, hp⟩ := lookupCol_some_exists _ _ _ hd
      have hdv : dv = [] := by
        have hlen := h p hmem
        rw [hp] at hlen
        exact List.eq_nil_of_length_eq_zero hlen
      unfold enrich
      rw [hd, hdv]
      exact lookupCol_setColAux_self _ _ _
    | none =>
      have hz : nRows df = 0 := by
        cases hc : df.cols with
        | nil => simp [nRows, hc]
        | cons p ps =>
          simp only [nRows, hc]
          exact h p (by rw [hc]; exact List.mem_cons_self p ps)
      unfold enrich
      rw [hd, hz]
      exact lookupCol_setColAux_self _ _ _
  constructor
  · unfold month_counts
    rw [key]
    rfl
  · unfold month_counts
    rw [key]
    rfl

/-- Witness for C8: a concrete zero-row frame with two columns. -/
theorem month_counts_empty_spec_witness :
    month_counts (enrich ⟨[("liturgy_date", []), ("preek", [])]⟩) = some [] :=
  (month_counts_empty_spec ⟨[("liturgy_date", []), ("preek", [])]⟩ (by decide)).1

/-- C9: whatever the input frame, the enriched frame always has a
`liturgy_month` column (derived from dates when `liturgy_date` exists,
the constant `"Unknown"` otherwise), so the month aggregation never
fails for lack of its grouping column. -/
theorem enrich_month_column_total (df : DataFrame) :
    (getColumn (enrich df) "liturgy_month").isSome ∧
    (month_counts (enrich df)).isSome := by
  have key : ∃ vals, getColumn (enrich df) "liturgy_month" = some vals := by
    cases hd : getColumn df "liturgy_date" with
    | some dv =>
      refine ⟨(dv.map (fun v => v.bind parseDate)).map (fun p => some (period_month_str p)), ?_⟩
      unfold enrich
      rw [hd]
      exact lookupCol_setColAux_self _ _ _
    | none =>
      refine ⟨List.replicate (nRows df) (some "Unknown"), ?_⟩
      unfold enrich
      rw [hd]
      exact lookupCol_setColAux_self _ _ _
  obtain ⟨vals, hv⟩ := key
  constructor
  · rw [hv]
    rfl
  · unfold month_counts
    rw [hv]
    rfl

theorem nRows_df_for_ai (df : DataFrame) (k : Nat) :
    nRows (df_for_ai df k) = min k (nRows df) := by
  cases df with
  | mk cols =>
    cases cols with
    | nil => simp [df_for_ai, nRows]
    | cons p ps => simp [df_for_ai, nRows, List.length_take]

theorem clamp_default_mem (last lo hi : Nat) (h : lo ≤ hi) :
    lo ≤ clamp_default last lo hi ∧ clamp_default last lo hi ≤ hi := by
  unfold clamp_default
  by_cases hc : last < lo ∨ last > hi
  · rw [if_pos hc]
    exact ⟨Nat.le_refl lo, h⟩
  · rw [if_neg hc]
    constructor <;> omega

/-- C10: on a nonempty dataset of `n` rows the slider bounds are
`[1, n]` when `n < 10` and `[10, min 500 n]` otherwise, any value the
slider can return lies in `[1, min 500 n]`, the remembered default is
reset into those bounds, and the subset sent to the model is the first
`limit` rows, hence never more than `min 500 n` rows. -/
theorem limit_rows_invariant (n last limit : Nat) (df : DataFrame)
    (hn : 0 < n) (hdf : nRows df = n)
    (h1 : slider_min n ≤ limit) (h2 : limit ≤ slider_max n) :
    1 ≤ limit ∧ limit ≤ min 500 n ∧
    slider_min n ≤ clamp_default last (slider_min n) (slider_max n) ∧
    clamp_default last (slider_min n) (slider_max n) ≤ slider_max n ∧
    nRows (df_for_ai df limit) ≤ min 500 n := by
  have hbounds : slider_min n ≤ slider_max n := by
    unfold slider_min slider_max
    by_cases hlt : n < 10
    · rw [if_pos hlt, if_pos hlt]
      omega
    · rw [if_neg hlt, if_neg hlt]
      omega
  obtain ⟨hc1, hc2⟩ := clamp_default_mem last (slider_min n) (slider_max n) hbounds
  have hone : 1 ≤ limit := by
    unfold slider_min at h1
    by_cases hlt : n < 10
    · rw [if_pos hlt] at h1
      omega
    · rw [if_neg hlt] at h1
      omega
  have hmax : limit ≤ min 500 n := by
    unfold slider_max at h2
    by_cases hlt : n < 10
    · rw [if_pos hlt] at h2
      omega
    · rw [if_neg hlt] at h2
      omega
  refine ⟨hone, hmax, hc1, hc2, ?_⟩
  rw [nRows_df_for_ai, hdf]
  omega

/-- Witness for C10: a five-row frame, an out-of-range remembered
default of 999, and a slider value of 3. -/
theorem limit_rows_invariant_witness :
    1 ≤ 3 ∧ 3 ≤ min 500 5 ∧
    slider_min 5 ≤ clamp_default 999 (slider_min 5) (slider_max 5) ∧
    clamp_default 999 (slider_min 5) (slider_max 5) ≤ slider_max 5 ∧
    nRows (df_for_ai ⟨[("liturgy_date", [none, none, none, none, none])]⟩ 3) ≤ min 500 5 :=
  limit_rows_invariant 5 999 3 ⟨[("liturgy_date", [none, none, none, none, none])]⟩
    (by decide) (by decide) (by decide) (by decide)

end LiturgiAI
